import Mathlib

/-!
Shallow embedding of the AIBlog repository's two source files.

* `src/main.py`: the `retry_with_exponential_backoff` decorator.  Delays are
  modelled over `ℚ` (idealising Python floats); `random.random()` is modelled
  as an oracle `rand : ℕ → ℚ` giving the value drawn before each retry, with
  the stdlib guarantee `0 ≤ rand i < 1` stated as a hypothesis where needed.
  The wrapped function is modelled as an oracle `f : ℕ → PyOutcome E A`
  giving the outcome of its `i`-th invocation.

* `src/utils.py`: `save_file`, `generate_random_filename` and
  `is_valid_filename`.  The file system is an association list from path
  strings to entries; fallible OS calls (rename, mkdir, open/write) draw
  their outcome from an environment record, mirroring the `try/except`
  structure of the Python code.
-/

set_option autoImplicit false

deriving instance DecidableEq for Except

namespace AIBlog

/-- Outcome of one Python call: a returned value or a raised exception. -/
inductive PyOutcome (E A : Type) where
  | ok (a : A)
  | exc (e : E)
deriving DecidableEq, Repr

/-- `RetryConfig` bundles the decorator parameters of
`retry_with_exponential_backoff` in `src/main.py`.  `max_attempts` is a
Python `int`, hence `Int`; the delay parameters are numbers, modelled as
`ℚ`. -/
structure RetryConfig where
  max_attempts : Int
  initial_delay : ℚ
  max_delay : ℚ
  exponential_base : ℚ
  jitter : Bool
deriving DecidableEq, Repr

/-- Pre-jitter delay computed after the `attempts`-th failure
(`src/main.py` lines 40-43):
`delay = initial_delay * (exponential_base ** (attempts - 1))` followed by
`delay = min(delay, max_delay)`.  Here `attempts ≥ 1` is the value of the
Python variable `attempts` after its increment. -/
def preJitterDelay (cfg : RetryConfig) (attempts : ℕ) : ℚ :=
  min (cfg.initial_delay * cfg.exponential_base ^ (attempts - 1)) cfg.max_delay

/-- Delay actually passed to `time.sleep` (`src/main.py` lines 46-47):
when `jitter` is set the capped delay is multiplied by
`0.5 + random.random()`, where `r` is the value drawn by `random.random()`. -/
def sleptDelay (cfg : RetryConfig) (attempts : ℕ) (r : ℚ) : ℚ :=
  let delay := preJitterDelay cfg attempts
  if cfg.jitter then delay * (1/2 + r) else delay

/-- Trace of one run of the `wrapper` loop: how many times the wrapped
function was invoked, the delays slept between attempts (in order), and the
final outcome.  `Except.ok (some a)` is a normal return of the wrapped
function's value, `Except.ok none` is the `return None` reached when the
`while` loop is never entered, and `Except.error e` is the re-raise after
the final failed attempt. -/
structure RetryTrace (E A : Type) where
  calls : ℕ
  delays : List ℚ
  result : Except E (Option A)

/-- One pass of the `while attempts < max_attempts` loop of `wrapper`
(`src/main.py` lines 29-52), with `attempts` the current Python counter and
`fuel` the number of loop iterations still allowed by the guard
(`fuel = max_attempts.toNat - attempts` at the top-level call).  Running out
of fuel is exactly the guard turning false, which falls through to
`return None`. -/
def retryGo {E A : Type} (cfg : RetryConfig) (f : ℕ → PyOutcome E A)
    (rand : ℕ → ℚ) : ℕ → ℕ → RetryTrace E A
  | _, 0 => ⟨0, [], .ok none⟩
  | attempts, fuel + 1 =>
    match f attempts with
    | .ok a => ⟨1, [], .ok (some a)⟩
    | .exc e =>
      if ((attempts + 1 : ℕ) : Int) = cfg.max_attempts then
        ⟨1, [], .error e⟩
      else
        let d := sleptDelay cfg (attempts + 1) (rand attempts)
        let rest := retryGo cfg f rand (attempts + 1) fuel
        ⟨1 + rest.calls, d :: rest.delays, rest.result⟩

/-- The decorated call: `wrapper` starts with `attempts = 0` and may loop at
most `max_attempts` times (none at all when `max_attempts ≤ 0`, since the
guard `0 < max_attempts` is then false). -/
def retryLoop {E A : Type} (cfg : RetryConfig) (f : ℕ → PyOutcome E A)
    (rand : ℕ → ℚ) : RetryTrace E A :=
  retryGo cfg f rand 0 cfg.max_attempts.toNat

/-! ## File system model for `src/utils.py` -/

/-- Data stored in a file: text written in mode `w`, or bytes in mode `wb`. -/
inductive FileData where
  | text (s : String)
  | bin (b : List Nat)
deriving DecidableEq, Repr

/-- A file-system entry is a regular file with its data, or a directory. -/
inductive Entry where
  | file (d : FileData)
  | dir
deriving DecidableEq, Repr

/-- The file system as an association list from path strings to entries;
the first binding for a path wins. -/
def FS : Type := List (String × Entry)

instance : DecidableEq FS := by
  unfold FS
  infer_instance

/-- Entry at path `p`, if any. -/
def FS.lookup (fs : FS) (p : String) : Option Entry :=
  (List.find? (fun e => e.1 = p) fs).map (fun e => e.2)

/-- Model of Python `path.exists()`. -/
def FS.exists (fs : FS) (p : String) : Bool :=
  (fs.lookup p).isSome

/-- Model of Python `path.is_dir()`. -/
def FS.isDir (fs : FS) (p : String) : Bool :=
  fs.lookup p = some .dir

/-- Remove any binding for path `p`. -/
def FS.erase (fs : FS) (p : String) : FS :=
  List.filter (fun e => e.1 ≠ p) fs

/-- Bind path `p` to entry `e`, shadowing any previous binding. -/
def FS.set (fs : FS) (p : String) (e : Entry) : FS :=
  (p, e) :: fs.erase p

/-- Model of `path.rename(backup_path)`: move the entry at `src` to `dst`. -/
def FS.rename (fs : FS) (src dst : String) : FS :=
  match fs.lookup src with
  | some e => (fs.erase src).set dst e
  | none => fs

/-- Model of constructing `pathlib.Path` from a string and reading back
`str(path)`.  The normalization relevant to this development is that
`Path("")` is `PosixPath('.')`; other strings are kept as written. -/
def pathOfString (s : String) : String :=
  if s = "" then "." else s

/-- Model of Python `str.strip()`: drop leading and trailing whitespace.
(Defined over the character list so that concrete instances evaluate.) -/
def pyStrip (s : String) : String :=
  ⟨((s.toList.dropWhile Char.isWhitespace).reverse.dropWhile Char.isWhitespace).reverse⟩

/-- Model of Python `c in s` for a character `c`. -/
def charIn (c : Char) (s : String) : Bool :=
  s.toList.contains c

/-- Model of Python slicing `s[:k]`. -/
def pyTake (s : String) (k : ℕ) : String :=
  ⟨s.toList.take k⟩

/-- Model of Python `str.upper()` for the ASCII names checked here. -/
def pyUpper (s : String) : String :=
  ⟨s.toList.map Char.toUpper⟩

/-- Model of Python `s.endswith(c)` for a single character `c`. -/
def lastCharIs (s : String) (c : Char) : Bool :=
  s.toList.getLast? = some c

/-- All proper ancestor paths of `p` (nearest last), by components.  Used to
model `path.parent.mkdir(parents=True, exist_ok=True)` creating the whole
missing chain. -/
def ancestorPaths (p : String) : List String :=
  let comps := p.splitOn "/"
  (List.range (comps.length - 1)).map
    (fun k => String.intercalate "/" (comps.take (k + 1)))

/-- Effect of a successful `path.parent.mkdir(parents=True, exist_ok=True)`:
every proper ancestor of `p` becomes a directory. -/
def mkdirParents (fs : FS) (p : String) : FS :=
  (ancestorPaths p).foldl (fun acc d => acc.set d .dir) fs

/-- Model of `path.parent` for relative paths: the last proper ancestor, or
`.` when the path has a single component (as in `PosixPath('a').parent`). -/
def parentOf (p : String) : String :=
  ((ancestorPaths p).getLast?).getD "."

/-! ## `save_file` (`src/utils.py` lines 11-137) -/

/-- Content argument of `save_file`.  `str` and `bytes` follow the two
`isinstance` branches; any other object is modelled by the outcome of
`str(content)` (which the code attempts, catching any exception) together
with the text Python would print for `type(content)`. -/
inductive PyContent where
  | str (s : String)
  | bytes (b : List Nat)
  | other (typeName : String) (strConv : Except String String)
deriving Repr

/-- Outcome of `path.parent.mkdir(parents=True, exist_ok=True)` as supplied
by the OS: success, a `PermissionError`, or another exception rendered as a
message. -/
inductive MkdirOutcome where
  | ok
  | permissionError
  | otherError (msg : String)
deriving DecidableEq, Repr

/-- Outcome of `open(path, mode)` / `f.write(...)` as supplied by the OS.
`PermissionError`, `UnicodeEncodeError` and `IOError` are caught by the
inner handlers; any other exception reaches the outer `except Exception`
of `save_file`. -/
inductive WriteOutcome where
  | ok
  | permissionError
  | unicodeEncodeError (msg : String)
  | ioError (msg : String)
  | otherExc (msg : String)
deriving DecidableEq, Repr

/-- OS-supplied outcomes of the fallible calls inside one run of
`save_file`: whether `path.rename` raises (and with what message), and the
outcomes of `mkdir` and of the write. -/
structure SaveEnv where
  renameExc : Option String
  mkdirOutcome : MkdirOutcome
  writeOutcome : WriteOutcome
deriving DecidableEq, Repr

/-- Shallow embedding of `save_file` (`src/utils.py` lines 11-137).  Returns
the Python pair `(成功状态, 错误信息)` together with the file system after the
call.  The whole body runs under `try/except Exception`, so no exception
escapes: every branch of this total function returns a pair.  `verbose`
printing is not modelled; `encoding` is threaded to the write, whose
outcome the environment supplies.  On a failed open/write the state of the
partially-truncated file is not observable through any claim and the file
system is left as it was after the backup/mkdir steps. -/
def save_file (fs : FS) (env : SaveEnv) (file_path : String) (content : PyContent)
    (create_parent_dirs : Bool := true) (overwrite : Bool := true)
    (backup_existing : Bool := false) : (Bool × Option String) × FS :=
  let path := pathOfString file_path
  -- 检查路径有效性 (`not path` is always false: `Path` objects are truthy)
  if pyStrip path = "" then
    ((false, some "文件路径不能为空"), fs)
  -- 检查路径是否为目录
  else if fs.exists path && fs.isDir path then
    ((false, some ("路径 '" ++ path ++ "' 是一个目录，不能保存文件")), fs)
  -- 检查文件是否已存在
  else if fs.exists path && !overwrite then
    ((false, some ("文件 '" ++ path ++ "' 已存在且不允许覆盖")), fs)
  else
    -- 创建备份文件 (failure to rename is a non-fatal warning)
    let fs1 :=
      if fs.exists path && backup_existing && env.renameExc.isNone then
        fs.rename path (path ++ ".bak")
      else fs
    -- 创建父目录
    match (if create_parent_dirs then env.mkdirOutcome else .ok) with
    | .permissionError =>
      ((false, some ("没有权限创建目录: " ++ parentOf path)), fs1)
    | .otherError e =>
      ((false, some ("创建目录时出错: " ++ e)), fs1)
    | .ok =>
      let fs2 := if create_parent_dirs then mkdirParents fs1 path else fs1
      -- 准备写入内容
      match
        (match content with
         | .str s => Except.ok (FileData.text s)
         | .bytes b => Except.ok (FileData.bin b)
         | .other typeName conv =>
           match conv with
           | .ok s => Except.ok (FileData.text s)
           | .error e =>
             Except.error ("无法处理内容类型: " ++ typeName ++ ", 错误: " ++ e))
      with
      | .error msg => ((false, some msg), fs2)
      | .ok data =>
        -- 写入文件
        match env.writeOutcome with
        | .ok => ((true, none), fs2.set path (.file data))
        | .permissionError => ((false, some ("没有写入权限: " ++ path)), fs2)
        | .unicodeEncodeError e =>
          ((false, some ("编码错误 (尝试使用不同的编码): " ++ e)), fs2)
        | .ioError e => ((false, some ("IO错误: " ++ e)), fs2)
        | .otherExc e =>
          -- 该异常到达外层 `except Exception`
          ((false, some ("保存文件时发生未知错误: " ++ e)), fs2)

/-! ## `is_valid_filename` (`src/utils.py` lines 314-353) -/

/-- The characters of the raw string `r'<>:"/\|?*'`. -/
def illegal_chars : List Char :=
  ['<', '>', ':', '"', '/', '\\', '|', '?', '*']

/-- The Windows reserved device names checked by `is_valid_filename`. -/
def reserved_names : List String :=
  ["CON", "PRN", "AUX", "NUL",
   "COM1", "COM2", "COM3", "COM4", "COM5", "COM6", "COM7", "COM8", "COM9",
   "LPT1", "LPT2", "LPT3", "LPT4", "LPT5", "LPT6", "LPT7", "LPT8", "LPT9"]

/-- Model of `pathlib.Path(filename).stem`: the final component without its
last suffix; a dot at position 0 or at the very end does not start a
suffix (CPython's `0 < i < len(name) - 1` rule). -/
def pathStem (filename : String) : String :=
  let name := (filename.toList.reverse.takeWhile (fun c => c ≠ '/')).reverse
  let dots := (List.range name.length).filter (fun i => name.getD i ' ' = '.')
  match dots.getLast? with
  | some i => if 0 < i ∧ i < name.length - 1 then ⟨name.take i⟩ else ⟨name⟩
  | none => ⟨name⟩

/-- Shallow embedding of `is_valid_filename` (`src/utils.py` lines 314-353). -/
def is_valid_filename (filename : String) : Bool :=
  if filename = "" || pyStrip filename = "" then false
  else if illegal_chars.any (fun c => charIn c filename) then false
  else if reserved_names.contains (pyUpper (pathStem filename)) then false
  else if filename.length > 255 then false
  else if lastCharIs filename '.' || lastCharIs filename ' ' then false
  else true

/-! ## `generate_random_filename` (`src/utils.py` lines 194-311) -/

/-- Errors raised by `generate_random_filename`: `ValueError` from the
parameter validation, `RuntimeError` from the probing loop. -/
inductive GenError where
  | valueError (msg : String)
  | runtimeError (msg : String)
deriving DecidableEq, Repr

/-- `string.ascii_letters`. -/
def ascii_letters : String :=
  "abcdefghijklmnopqrstuvwxyzABCDEFGHIJKLMNOPQRSTUVWXYZ"

/-- `string.digits`. -/
def str_digits : String := "0123456789"

/-- The `charsets` dictionary (`src/utils.py` lines 249-255); note that
`string.hexdigits.lower()` is `"0123456789abcdefabcdef"`, duplicates
included. -/
def charsets : List (String × String) :=
  [("alphanumeric", ascii_letters ++ str_digits),
   ("letters", ascii_letters),
   ("digits", str_digits),
   ("hex", "0123456789abcdefabcdef"),
   ("safe", ascii_letters ++ str_digits ++ "_-")]

/-- Oracles for the nondeterministic calls inside the probing loop, indexed
by the attempt number: `uuid4().hex` (always 32 lowercase hex characters —
stated as a hypothesis where a claim needs it), the string built by
`''.join(random.choices(charset_str, k=length))`, `int(time.time())`, and
whether the attempt body raises an exception (with its message) instead of
completing — `attemptExc i = some e` abstracts any `Exception` caught by the
per-attempt `try`. -/
structure GenEnv where
  uuidHex : ℕ → String
  randChoice : ℕ → String
  timeNow : ℕ → Int
  attemptExc : ℕ → Option String

/-- The random part of attempt `attempt` (`src/utils.py` lines 266-270):
for charset `hex` the first `k` characters of the attempt's UUID hex, else
the `random.choices` string. -/
def randomPartOf (env : GenEnv) (charset : String) (k : ℕ) (attempt : ℕ) : String :=
  if charset = "hex" then pyTake (env.uuidHex attempt) k else env.randChoice attempt

/-- Filename assembly (`src/utils.py` lines 272-291): the non-empty parts
among prefix, timestamp, random part and suffix joined with `_`, then the
extension appended as `.ext` when given.  `pfx` models the Python `prefix`
parameter. -/
def buildFilename (pfx : String) (timestampPart : Option String)
    (random_part : String) (suffix : String) (ext : Option String) : String :=
  let parts :=
    (if pfx ≠ "" then [pfx] else []) ++ timestampPart.toList ++ [random_part] ++
      (if suffix ≠ "" then [suffix] else [])
  let filename := String.intercalate "_" parts
  match ext with
  | some e => filename ++ "." ++ e
  | none => filename

/-- The candidate filename built by attempt `attempt`. -/
def candidateOf (env : GenEnv) (charset : String) (k : ℕ) (pfx suffix : String)
    (timestamp : Bool) (ext : Option String) (attempt : ℕ) : String :=
  buildFilename pfx
    (if timestamp then some (toString (env.timeNow attempt)) else none)
    (randomPartOf env charset k attempt) suffix ext

/-- Whether a candidate is returned by the loop (`src/utils.py` lines
293-303): it must pass `is_valid_filename`, and when a target directory was
given, `target_dir / filename` must not exist. -/
def acceptedBy (fs : FS) (target_dir : Option String) (filename : String) : Bool :=
  is_valid_filename filename &&
    (match target_dir with
     | some d => !(fs.exists (if d = "." then filename else d ++ "/" ++ filename))
     | none => true)

/-- Processing of the `extension` parameter (`src/utils.py` lines 232-237):
strip whitespace, strip leading dots, reject empty or illegal results. -/
def processExtension : Option String → Except GenError (Option String)
  | none => .ok none
  | some e =>
    let e1 : String := ⟨(pyStrip e).toList.dropWhile (fun c => c = '.')⟩
    if e1 = "" then .error (.valueError "扩展名不能为空字符串")
    else if illegal_chars.any (fun c => charIn c e1) then
      .error (.valueError ("扩展名包含非法字符: " ++ e1))
    else .ok (some e1)

/-- Validation of the `directory` parameter (`src/utils.py` lines 240-246):
it must exist and be a directory; on success the loop uses
`target_dir = Path(directory)`. -/
def validateDirectory (fs : FS) : Option String → Except GenError (Option String)
  | none => .ok none
  | some d =>
    let td := pathOfString d
    if !(fs.exists td) then .error (.valueError ("目录不存在: " ++ d))
    else if !(fs.isDir td) then .error (.valueError ("路径不是目录: " ++ d))
    else .ok (some td)

/-- One pass of the `for attempt in range(max_attempts)` loop
(`src/utils.py` lines 263-311), with `fuel` the iterations remaining
(`max_attempts - attempt`).  Returns the result together with the number of
loop iterations executed.  An attempt either raises (re-raised as
`RuntimeError` on the last attempt, otherwise `continue`), returns its
accepted candidate, or `continue`s.  Exhausting the range raises the final
`RuntimeError` of line 311. -/
def genLoop (env : GenEnv) (fs : FS) (charset : String) (k : ℕ)
    (pfx suffix : String) (timestamp : Bool) (ext : Option String)
    (target_dir : Option String) (max_attempts : Int) :
    ℕ → ℕ → Except GenError String × ℕ
  | _, 0 =>
    (.error (.runtimeError
      ("无法在 " ++ toString max_attempts ++ " 次尝试内生成唯一文件名")), 0)
  | attempt, fuel + 1 =>
    match env.attemptExc attempt with
    | some e =>
      if (attempt : Int) = max_attempts - 1 then
        (.error (.runtimeError ("生成随机文件名时出错: " ++ e)), 1)
      else
        let r := genLoop env fs charset k pfx suffix timestamp ext target_dir
          max_attempts (attempt + 1) fuel
        (r.1, r.2 + 1)
    | none =>
      let filename := candidateOf env charset k pfx suffix timestamp ext attempt
      if acceptedBy fs target_dir filename then (.ok filename, 1)
      else
        let r := genLoop env fs charset k pfx suffix timestamp ext target_dir
          max_attempts (attempt + 1) fuel
        (r.1, r.2 + 1)

/-- Shallow embedding of `generate_random_filename` (`src/utils.py` lines
194-311).  Returns the result (`Except.ok` a filename, or the raised
error) together with the number of probing-loop iterations executed.
`length` and `max_attempts` are Python ints, hence `Int`; `pfx` models the
`prefix` parameter. -/
def generate_random_filename (env : GenEnv) (fs : FS)
    (extension : Option String) (length : Int) (pfx suffix : String)
    (directory : Option String) (max_attempts : Int) (charset : String)
    (timestamp : Bool) : Except GenError String × ℕ :=
  -- 参数验证
  if length ≤ 0 then (.error (.valueError "长度必须为正整数"), 0)
  else if max_attempts ≤ 0 then (.error (.valueError "最大尝试次数必须为正整数"), 0)
  else
    -- 处理扩展名
    match processExtension extension with
    | .error e => (.error e, 0)
    | .ok ext =>
      -- 验证目录
      match validateDirectory fs directory with
      | .error e => (.error e, 0)
      | .ok target_dir =>
        -- 定义字符集
        match (List.find? (fun c => c.1 = charset) charsets).map (fun c => c.2) with
        | none =>
          (.error (.valueError ("不支持的字符集类型: " ++ charset ++
            "，可选: ['alphanumeric', 'letters', 'digits', 'hex', 'safe']")), 0)
        | some _charset_str =>
          -- 生成文件名 (`charset_str` feeds `random.choices`, modelled by
          -- the `randChoice` oracle)
          genLoop env fs charset length.toNat pfx suffix timestamp ext
            target_dir max_attempts 0 max_attempts.toNat

/-! ## Theorems about the Backoff Policy -/

/-- Helper: on a run where every invocation of the wrapped function raises,
the loop body starting at counter `attempt` with `fuel` guard-allowed
iterations (`attempt + fuel = max_attempts`) makes exactly `fuel` calls,
re-raises the error of the last call, and sleeps `fuel - 1` times. -/
theorem retryGo_all_fail {E A : Type} (cfg : RetryConfig) (er : ℕ → E) (rand : ℕ → ℚ) :
    ∀ (n attempt : ℕ), ((attempt : Int) + (n + 1) = cfg.max_attempts) →
      (retryGo cfg (fun i => (PyOutcome.exc (er i) : PyOutcome E A)) rand attempt (n + 1)).calls = n + 1 ∧
      (retryGo cfg (fun i => (PyOutcome.exc (er i) : PyOutcome E A)) rand attempt (n + 1)).result
        = Except.error (er (attempt + n)) ∧
      (retryGo cfg (fun i => (PyOutcome.exc (er i) : PyOutcome E A)) rand attempt (n + 1)).delays.length = n := by
  intro n
  induction n with
  | zero =>
    intro attempt h
    have hlast : ((attempt + 1 : ℕ) : Int) = cfg.max_attempts := by push_cast at h ⊢; omega
    simp [retryGo, hlast]
  | succ m ih =>
    intro attempt h
    have hne : ¬ (((attempt + 1 : ℕ) : Int) = cfg.max_attempts) := by push_cast at h ⊢; omega
    have hrec := ih (attempt + 1) (by push_cast at h ⊢; omega)
    have hstep : retryGo cfg (fun i => (PyOutcome.exc (er i) : PyOutcome E A)) rand attempt (m + 1 + 1)
        = if ((attempt + 1 : ℕ) : Int) = cfg.max_attempts then
            ⟨1, [], Except.error (er attempt)⟩
          else
            ⟨1 + (retryGo cfg (fun i => (PyOutcome.exc (er i) : PyOutcome E A)) rand (attempt + 1) (m + 1)).calls,
              sleptDelay cfg (attempt + 1) (rand attempt) ::
                (retryGo cfg (fun i => (PyOutcome.exc (er i) : PyOutcome E A)) rand (attempt + 1) (m + 1)).delays,
              (retryGo cfg (fun i => (PyOutcome.exc (er i) : PyOutcome E A)) rand (attempt + 1) (m + 1)).result⟩ := rfl
    rw [hstep, if_neg hne]
    refine ⟨?_, ?_, ?_⟩
    · simp [hrec.1]; omega
    · simpa [Nat.add_assoc, Nat.add_comm 1 m] using hrec.2.1
    · simp [hrec.2.2]

/-- C2: for every attempt count `k ≥ 1`, the pre-jitter delay before
attempt `k+1` equals `min(max_delay, initial_delay * exponential_base^(k-1))`
(the code computes the `min` with its arguments swapped), and with jitter
enabled the slept delay is the pre-jitter delay times `0.5 + r`, a factor
lying in `[0.5, 1.5)` since `random.random()` returns `r ∈ [0, 1)`. -/
theorem retry_delay_formula (cfg : RetryConfig) (k : ℕ) (r : ℚ)
    (_hk : 1 ≤ k) (hr0 : 0 ≤ r) (hr1 : r < 1) :
    preJitterDelay cfg k
        = min cfg.max_delay (cfg.initial_delay * cfg.exponential_base ^ (k - 1)) ∧
      (cfg.jitter = true →
        sleptDelay cfg k r = preJitterDelay cfg k * (1/2 + r) ∧
          1/2 ≤ 1/2 + r ∧ 1/2 + r < 3/2) := by
  refine ⟨min_comm _ _, fun hj => ⟨?_, by linarith, by linarith⟩⟩
  simp [sleptDelay, hj]

/-- Witness for C2 at `cfg = ⟨5, 1, 180, 2, true⟩`, `k = 3`, `r = 1/4`. -/
theorem retry_delay_formula_witness :
    preJitterDelay ⟨5, 1, 180, 2, true⟩ 3
        = min (180 : ℚ) (1 * 2 ^ (3 - 1)) ∧
      ((true : Bool) = true →
        sleptDelay ⟨5, 1, 180, 2, true⟩ 3 (1/4)
            = preJitterDelay ⟨5, 1, 180, 2, true⟩ 3 * (1/2 + 1/4) ∧
          (1/2 : ℚ) ≤ 1/2 + 1/4 ∧ (1/2 : ℚ) + 1/4 < 3/2) :=
  retry_delay_formula ⟨5, 1, 180, 2, true⟩ 3 (1/4) (by norm_num) (by norm_num)
    (by norm_num)

/-- C3 counterexample: with `max_attempts = 5`, `initial_delay = 1`,
`max_delay = 1`, `exponential_base = 2`, jitter enabled and
`random.random()` drawing `0.9`, the first delay actually slept is
`min(1, 1) * (0.5 + 0.9) = 1.4`, strictly above `max_delay = 1`: jitter is
applied after the cap, so the slept delay can exceed `max_delay`. -/
theorem retry_sleep_exceeds_max_delay_cex :
    (retryLoop (E := Unit) (A := Unit) ⟨5, 1, 1, 2, true⟩
        (fun _ => .exc ()) (fun _ => 9/10)).delays.head? = some (7/5) ∧
      RetryConfig.max_delay ⟨5, 1, 1, 2, true⟩ < 7/5 := by
  constructor
  · have hd : (retryLoop (E := Unit) (A := Unit) ⟨5, 1, 1, 2, true⟩
          (fun _ => .exc ()) (fun _ => 9/10)).delays.head?
        = some (sleptDelay ⟨5, 1, 1, 2, true⟩ 1 (9/10)) := rfl
    rw [hd]
    have hv : sleptDelay ⟨5, 1, 1, 2, true⟩ 1 (9/10) = 7/5 := by
      unfold sleptDelay preJitterDelay
      norm_num
    rw [hv]
  · norm_num

/-- C3 amended: the pre-jitter delay never exceeds `max_delay`; the slept
delay never exceeds `max_delay` when jitter is disabled, and never exceeds
`1.5 * max_delay` in any case (for nonnegative configuration values and
`random.random()` drawing `r ∈ [0, 1)`). -/
theorem retry_sleep_bounded (cfg : RetryConfig) (k : ℕ) (r : ℚ)
    (hi : 0 ≤ cfg.initial_delay) (hb : 0 ≤ cfg.exponential_base)
    (hm : 0 ≤ cfg.max_delay) (hr0 : 0 ≤ r) (hr1 : r < 1) :
    preJitterDelay cfg k ≤ cfg.max_delay ∧
      (cfg.jitter = false → sleptDelay cfg k r ≤ cfg.max_delay) ∧
      sleptDelay cfg k r ≤ 3/2 * cfg.max_delay := by
  have hple : preJitterDelay cfg k ≤ cfg.max_delay := min_le_right _ _
  have hppos : 0 ≤ preJitterDelay cfg k :=
    le_min (by positivity) hm
  refine ⟨hple, fun hj => by simp [sleptDelay, hj, hple], ?_⟩
  unfold sleptDelay
  split
  · nlinarith
  · linarith

/-- Witness for C3's amended statement at `cfg = ⟨5, 1, 180, 2, true⟩`,
`k = 4`, `r = 9/10`. -/
theorem retry_sleep_bounded_witness :
    preJitterDelay ⟨5, 1, 180, 2, true⟩ 4 ≤ RetryConfig.max_delay ⟨5, 1, 180, 2, true⟩ ∧
      (RetryConfig.jitter ⟨5, 1, 180, 2, true⟩ = false →
        sleptDelay ⟨5, 1, 180, 2, true⟩ 4 (9/10) ≤ RetryConfig.max_delay ⟨5, 1, 180, 2, true⟩) ∧
      sleptDelay ⟨5, 1, 180, 2, true⟩ 4 (9/10)
        ≤ 3/2 * RetryConfig.max_delay ⟨5, 1, 180, 2, true⟩ :=
  retry_sleep_bounded ⟨5, 1, 180, 2, true⟩ 4 (9/10) (by norm_num) (by norm_num)
    (by norm_num) (by norm_num) (by norm_num)

/-- C4: when every attempt of the wrapped operation raises, the operation is
invoked exactly `max_attempts` times, the wrapper re-raises the exception of
the final attempt unmodified, and the wrapper sleeps `max_attempts - 1`
times; in particular with `max_attempts = 1` it sleeps not at all. -/
theorem retry_all_attempts_fail {E A : Type} (cfg : RetryConfig) (er : ℕ → E)
    (rand : ℕ → ℚ) (h1 : 1 ≤ cfg.max_attempts) :
    (retryLoop cfg (fun i => (PyOutcome.exc (er i) : PyOutcome E A)) rand).calls
        = cfg.max_attempts.toNat ∧
      (retryLoop cfg (fun i => (PyOutcome.exc (er i) : PyOutcome E A)) rand).result
        = Except.error (er (cfg.max_attempts.toNat - 1)) ∧
      (retryLoop cfg (fun i => (PyOutcome.exc (er i) : PyOutcome E A)) rand).delays.length
        = cfg.max_attempts.toNat - 1 ∧
      (cfg.max_attempts = 1 →
        (retryLoop cfg (fun i => (PyOutcome.exc (er i) : PyOutcome E A)) rand).delays = []) := by
  obtain ⟨n, hn⟩ : ∃ n, cfg.max_attempts.toNat = n + 1 :=
    ⟨cfg.max_attempts.toNat - 1, by omega⟩
  have hcast : ((0 : ℕ) : Int) + (n + 1) = cfg.max_attempts := by
    have := Int.toNat_of_nonneg (le_trans (by norm_num) h1)
    push_cast
    omega
  have h := retryGo_all_fail (A := A) cfg er rand n 0 hcast
  unfold retryLoop
  rw [hn]
  refine ⟨h.1, by simpa using h.2.1, by simp [h.2.2], fun hone => ?_⟩
  have hn0 : n = 0 := by omega
  subst hn0
  exact List.length_eq_zero.mp h.2.2

/-- Witness for C4 at `cfg = ⟨3, 1, 180, 2, true⟩` with every attempt
raising error `i` and `random.random()` drawing `1/2`. -/
theorem retry_all_attempts_fail_witness :
    (retryLoop (A := Unit) ⟨3, 1, 180, 2, true⟩
          (fun i => (PyOutcome.exc i : PyOutcome ℕ Unit)) (fun _ => 1/2)).calls
        = (3 : Int).toNat ∧
      (retryLoop (A := Unit) ⟨3, 1, 180, 2, true⟩
          (fun i => (PyOutcome.exc i : PyOutcome ℕ Unit)) (fun _ => 1/2)).result
        = Except.error ((3 : Int).toNat - 1) ∧
      (retryLoop (A := Unit) ⟨3, 1, 180, 2, true⟩
          (fun i => (PyOutcome.exc i : PyOutcome ℕ Unit)) (fun _ => 1/2)).delays.length
        = (3 : Int).toNat - 1 ∧
      ((3 : Int) = 1 →
        (retryLoop (A := Unit) ⟨3, 1, 180, 2, true⟩
          (fun i => (PyOutcome.exc i : PyOutcome ℕ Unit)) (fun _ => 1/2)).delays = []) :=
  retry_all_attempts_fail ⟨3, 1, 180, 2, true⟩ (fun i => i) (fun _ => 1/2)
    (by norm_num)

/-- C9: with `max_attempts ≤ 0` the `while` guard is false at entry, so the
wrapped operation is never invoked, nothing is slept, and the wrapper falls
through to `return None` without raising. -/
theorem retry_nonpositive_no_call {E A : Type} (cfg : RetryConfig)
    (f : ℕ → PyOutcome E A) (rand : ℕ → ℚ) (h : cfg.max_attempts ≤ 0) :
    (retryLoop cfg f rand).calls = 0 ∧
      (retryLoop cfg f rand).delays = [] ∧
      (retryLoop cfg f rand).result = Except.ok none := by
  have h0 : cfg.max_attempts.toNat = 0 := Int.toNat_of_nonpos h
  simp [retryLoop, h0, retryGo]

/-- Witness for C9 at `max_attempts = -2`. -/
theorem retry_nonpositive_no_call_witness :
    (retryLoop (E := Unit) (A := Unit) ⟨-2, 1, 180, 2, true⟩
          (fun _ => .exc ()) (fun _ => 1/2)).calls = 0 ∧
      (retryLoop (E := Unit) (A := Unit) ⟨-2, 1, 180, 2, true⟩
          (fun _ => .exc ()) (fun _ => 1/2)).delays = [] ∧
      (retryLoop (E := Unit) (A := Unit) ⟨-2, 1, 180, 2, true⟩
          (fun _ => .exc ()) (fun _ => 1/2)).result = Except.ok none :=
  retry_nonpositive_no_call ⟨-2, 1, 180, 2, true⟩ (fun _ => .exc ()) (fun _ => 1/2)
    (by norm_num)

/-! ## Theorems about `save_file` -/

/-- C1: `save_file` is a total function — the `try/except Exception` around
its body means no exception reaches the caller — and its returned pair is
well-formed: success is reported exactly when the error message is absent,
for every path, content, flag setting and OS outcome. -/
theorem save_file_wellformed (fs : FS) (env : SaveEnv) (file_path : String)
    (content : PyContent) (create_parent_dirs overwrite backup_existing : Bool) :
    ((save_file fs env file_path content create_parent_dirs overwrite backup_existing).1.1 = true
      ↔ (save_file fs env file_path content create_parent_dirs overwrite backup_existing).1.2 = none) := by
  unfold save_file
  dsimp only
  repeat' split
  all_goals simp

/-- C5 is a code bug, witnessed here: `pathlib.Path("")` is `PosixPath('.')`
and `Path` objects are always truthy, so the empty-path validation
(`not path or str(path).strip() == ""`) never fires for the empty string;
instead `save_file("")` hits the directory check against the current
directory `.` and returns the is-a-directory error, not the invalid-path
error — still writing nothing. -/
theorem save_file_empty_path_hits_is_directory :
    (save_file [(".", Entry.dir)] ⟨none, .ok, .ok⟩ "" (.str "x")).1
        = (false, some "路径 '.' 是一个目录，不能保存文件") ∧
      (save_file [(".", Entry.dir)] ⟨none, .ok, .ok⟩ "" (.str "x")).2
        = [(".", Entry.dir)] ∧
      (save_file [(".", Entry.dir)] ⟨none, .ok, .ok⟩ "" (.str "x")).1
        ≠ (false, some "文件路径不能为空") := by
  refine ⟨rfl, rfl, by decide⟩

/-- C6: saving over an existing file with `overwrite = false` returns the
already-exists failure and leaves the whole file system (in particular the
file's content) unchanged. -/
theorem save_file_no_overwrite (fs : FS) (env : SaveEnv) (file_path : String)
    (content : PyContent) (create_parent_dirs backup_existing : Bool) (d : FileData)
    (hne : pyStrip (pathOfString file_path) ≠ "")
    (hf : fs.lookup (pathOfString file_path) = some (.file d)) :
    save_file fs env file_path content create_parent_dirs false backup_existing
      = ((false, some ("文件 '" ++ pathOfString file_path ++ "' 已存在且不允许覆盖")), fs) := by
  have hex : fs.exists (pathOfString file_path) = true := by
    simp [FS.exists, hf]
  have hdir : fs.isDir (pathOfString file_path) = false := by
    simp [FS.isDir, hf]
  unfold save_file
  simp [hne, hex, hdir]

/-- Witness for C6: a one-file file system, saving to the existing `a.md`. -/
theorem save_file_no_overwrite_witness :
    save_file [("a.md", Entry.file (.text "old"))] ⟨none, .ok, .ok⟩ "a.md"
        (.str "new") true false false
      = ((false, some ("文件 '" ++ pathOfString "a.md" ++ "' 已存在且不允许覆盖")),
          [("a.md", Entry.file (.text "old"))]) :=
  save_file_no_overwrite [("a.md", Entry.file (.text "old"))] ⟨none, .ok, .ok⟩
    "a.md" (.str "new") true false (.text "old") (by decide) (by decide)

/-! ## Theorems about `generate_random_filename` -/

/-- Helper: any filename returned by the probing loop is the candidate of
some attempt and passed the acceptance checks (legality, and freshness in
the target directory when one was given). -/
theorem genLoop_ok (env : GenEnv) (fs : FS) (charset : String) (k : ℕ)
    (pfx suffix : String) (timestamp : Bool) (ext : Option String)
    (target_dir : Option String) (max_attempts : Int) :
    ∀ (fuel attempt : ℕ) (fname : String),
      (genLoop env fs charset k pfx suffix timestamp ext target_dir max_attempts
          attempt fuel).1 = .ok fname →
      ∃ i, fname = candidateOf env charset k pfx suffix timestamp ext i ∧
        acceptedBy fs target_dir fname = true := by
  intro fuel
  induction fuel with
  | zero =>
    intro attempt fname h
    simp [genLoop] at h
  | succ m ih =>
    intro attempt fname h
    unfold genLoop at h
    dsimp only at h
    split at h
    · split at h
      · exact absurd h (by simp)
      · exact ih (attempt + 1) fname h
    · split at h
      next hacc =>
        have hf : fname = candidateOf env charset k pfx suffix timestamp ext attempt := by
          simpa using h.symm
        exact ⟨attempt, hf, by rw [hf]; exact hacc⟩
      next => exact ih (attempt + 1) fname h

/-- Helper: the probing loop executes at most `fuel` iterations. -/
theorem genLoop_count_le (env : GenEnv) (fs : FS) (charset : String) (k : ℕ)
    (pfx suffix : String) (timestamp : Bool) (ext : Option String)
    (target_dir : Option String) (max_attempts : Int) :
    ∀ (fuel attempt : ℕ),
      (genLoop env fs charset k pfx suffix timestamp ext target_dir max_attempts
          attempt fuel).2 ≤ fuel := by
  intro fuel
  induction fuel with
  | zero => intro attempt; simp [genLoop]
  | succ m ih =>
    intro attempt
    unfold genLoop
    dsimp only
    split
    · split
      · simp
      · exact Nat.succ_le_succ (ih (attempt + 1))
    · split
      · simp
      · exact Nat.succ_le_succ (ih (attempt + 1))

/-- Helper: if every remaining attempt either raises internally or builds a
rejected candidate, the loop ends in a `RuntimeError` (either the re-raise
of the last attempt's internal error, or the exhaustion error after the
range ends). -/
theorem genLoop_exhaust (env : GenEnv) (fs : FS) (charset : String) (k : ℕ)
    (pfx suffix : String) (timestamp : Bool) (ext : Option String)
    (target_dir : Option String) (max_attempts : Int) :
    ∀ (fuel attempt : ℕ),
      (∀ j, attempt ≤ j → j < attempt + fuel → env.attemptExc j = none →
        acceptedBy fs target_dir
          (candidateOf env charset k pfx suffix timestamp ext j) = false) →
      ∃ m, (genLoop env fs charset k pfx suffix timestamp ext target_dir
          max_attempts attempt fuel).1 = .error (.runtimeError m) := by
  intro fuel
  induction fuel with
  | zero =>
    intro attempt _
    exact ⟨_, rfl⟩
  | succ m ih =>
    intro attempt hrej
    unfold genLoop
    dsimp only
    cases hx : env.attemptExc attempt with
    | some e =>
      by_cases hlast : (attempt : Int) = max_attempts - 1
      · exact ⟨"生成随机文件名时出错: " ++ e, by simp [hlast]⟩
      · obtain ⟨msg, hm⟩ := ih (attempt + 1)
          (fun j h1 h2 => hrej j (by omega) (by omega))
        exact ⟨msg, by simp [hlast, hm]⟩
    | none =>
      have hacc : acceptedBy fs target_dir
          (candidateOf env charset k pfx suffix timestamp ext attempt) = false :=
        hrej attempt (le_refl _) (by omega) hx
      obtain ⟨msg, hm⟩ := ih (attempt + 1)
        (fun j h1 h2 => hrej j (by omega) (by omega))
      exact ⟨msg, by simp [hacc, hm]⟩

/-- Helper: a filename returned by `generate_random_filename` passed every
validation, is the candidate of some attempt, and was accepted. -/
theorem generate_ok (env : GenEnv) (fs : FS) (extension : Option String)
    (length : Int) (pfx suffix : String) (directory : Option String)
    (max_attempts : Int) (charset : String) (timestamp : Bool) (fname : String)
    (h : (generate_random_filename env fs extension length pfx suffix directory
        max_attempts charset timestamp).1 = .ok fname) :
    ∃ ext target_dir i,
      processExtension extension = .ok ext ∧
      validateDirectory fs directory = .ok target_dir ∧
      fname = candidateOf env charset length.toNat pfx suffix timestamp ext i ∧
      acceptedBy fs target_dir fname = true := by
  unfold generate_random_filename at h
  split at h
  · exact absurd h (by simp)
  · split at h
    · exact absurd h (by simp)
    · split at h
      next heq => exact absurd h (by simp)
      next ext heq =>
        split at h
        next heq2 => exact absurd h (by simp)
        next td heq2 =>
          split at h
          · exact absurd h (by simp)
          · obtain ⟨i, hc, ha⟩ := genLoop_ok env fs charset length.toNat pfx suffix
              timestamp ext td max_attempts max_attempts.toNat 0 fname h
            exact ⟨ext, td, i, heq, heq2, hc, ha⟩

/-- C7: whenever `generate_random_filename` is called with a directory and
returns normally, the returned filename does not collide: the path
`target_dir / filename` did not exist at the time of the loop's existence
check (the file system is single-actor here, so that is the state `fs`). -/
theorem generate_no_collision (env : GenEnv) (fs : FS) (extension : Option String)
    (length : Int) (pfx suffix : String) (d : String) (max_attempts : Int)
    (charset : String) (timestamp : Bool) (fname : String)
    (h : (generate_random_filename env fs extension length pfx suffix (some d)
        max_attempts charset timestamp).1 = .ok fname) :
    fs.exists (if pathOfString d = "." then fname
      else pathOfString d ++ "/" ++ fname) = false := by
  obtain ⟨ext, td, i, _, hvd, _, hacc⟩ :=
    generate_ok env fs extension length pfx suffix (some d) max_attempts charset
      timestamp fname h
  have htd : td = some (pathOfString d) := by
    unfold validateDirectory at hvd
    dsimp only at hvd
    split at hvd
    · exact absurd hvd (by simp)
    · split at hvd
      · exact absurd hvd (by simp)
      · simpa using hvd.symm
  subst htd
  simp only [acceptedBy, Bool.and_eq_true, Bool.not_eq_true'] at hacc
  exact hacc.2

/-- Witness for C7: an empty directory `mydir`; the only candidate is
accepted at once and names no existing file. -/
theorem generate_no_collision_witness :
    FS.exists [("mydir", Entry.dir)]
        (if pathOfString "mydir" = "." then "abc123xyz789.md"
          else pathOfString "mydir" ++ "/" ++ "abc123xyz789.md") = false :=
  generate_no_collision
    ⟨fun _ => "0123456789abcdef0123456789abcdef", fun _ => "abc123xyz789",
      fun _ => 0, fun _ => none⟩
    [("mydir", Entry.dir)] (some "md") 12 "" "" "mydir" 10 "alphanumeric" false
    "abc123xyz789.md" (by decide)

/-- C8: `generate_random_filename` always terminates — its probing loop
executes at most `max_attempts` iterations whatever the inputs — and, when
the parameters validate but no attempt yields a legal, non-colliding
candidate (each attempt raises internally or builds a rejected candidate),
it raises a `RuntimeError` rather than looping forever. -/
theorem generate_filename_terminates (env : GenEnv) (fs : FS)
    (extension : Option String) (length : Int) (pfx suffix : String)
    (directory : Option String) (max_attempts : Int) (charset : String)
    (timestamp : Bool) (ext td : Option String) (cp : String × String)
    (hlen : 0 < length) (hma : 0 < max_attempts)
    (hext : processExtension extension = .ok ext)
    (hdir : validateDirectory fs directory = .ok td)
    (hcs : List.find? (fun c => c.1 = charset) charsets = some cp)
    (hrej : ∀ j, j < max_attempts.toNat → env.attemptExc j = none →
      acceptedBy fs td
        (candidateOf env charset length.toNat pfx suffix timestamp ext j) = false) :
    (∀ (env' : GenEnv) (fs' : FS) (extension' : Option String) (length' : Int)
        (pfx' suffix' : String) (directory' : Option String) (max_attempts' : Int)
        (charset' : String) (timestamp' : Bool),
      (generate_random_filename env' fs' extension' length' pfx' suffix' directory'
          max_attempts' charset' timestamp').2 ≤ max_attempts'.toNat) ∧
      ∃ m, (generate_random_filename env fs extension length pfx suffix directory
          max_attempts charset timestamp).1 = .error (.runtimeError m) := by
  constructor
  · intro env' fs' extension' length' pfx' suffix' directory' max_attempts' charset' timestamp'
    unfold generate_random_filename
    split
    · simp
    · split
      · simp
      · split
        · simp
        · split
          · simp
          · split
            · simp
            · exact genLoop_count_le env' fs' charset' length'.toNat pfx' suffix'
                timestamp' _ _ max_attempts' max_attempts'.toNat 0
  · have hrej0 : ∀ j, 0 ≤ j → j < 0 + max_attempts.toNat →
        env.attemptExc j = none →
        acceptedBy fs td
          (candidateOf env charset length.toNat pfx suffix timestamp ext j) = false :=
      fun j _ h2 => hrej j (by omega)
    obtain ⟨m, hm⟩ := genLoop_exhaust env fs charset length.toNat pfx suffix
      timestamp ext td max_attempts max_attempts.toNat 0 hrej0
    refine ⟨m, ?_⟩
    unfold generate_random_filename
    rw [if_neg (by omega), if_neg (by omega), hext, hdir, hcs]
    exact hm

/-- Witness for C8: `max_attempts = 1` against a directory already holding
the single candidate the random oracle can produce; the loop stops after
its one allowed iteration with the exhaustion `RuntimeError`. -/
theorem generate_filename_terminates_witness :
    (∀ (env' : GenEnv) (fs' : FS) (extension' : Option String) (length' : Int)
        (pfx' suffix' : String) (directory' : Option String) (max_attempts' : Int)
        (charset' : String) (timestamp' : Bool),
      (generate_random_filename env' fs' extension' length' pfx' suffix' directory'
          max_attempts' charset' timestamp').2 ≤ max_attempts'.toNat) ∧
      ∃ m, (generate_random_filename
          ⟨fun _ => "0123456789abcdef0123456789abcdef", fun _ => "abc123xyz789",
            fun _ => 0, fun _ => none⟩
          [("mydir", Entry.dir), ("mydir/abc123xyz789.md", Entry.file (.text ""))]
          (some "md") 12 "" "" (some "mydir") 1 "alphanumeric" false).1
        = .error (.runtimeError m) :=
  generate_filename_terminates
    ⟨fun _ => "0123456789abcdef0123456789abcdef", fun _ => "abc123xyz789",
      fun _ => 0, fun _ => none⟩
    [("mydir", Entry.dir), ("mydir/abc123xyz789.md", Entry.file (.text ""))]
    (some "md") 12 "" "" (some "mydir") 1 "alphanumeric" false
    (some "md") (some "mydir") ("alphanumeric", ascii_letters ++ str_digits)
    (by norm_num) (by norm_num) (by decide) (by decide) (by decide)
    (by decide)

/-- C10: with `charset = "hex"` the random part is `uuid4().hex[:length]`;
since a UUID hex string has 32 characters, requesting `length > 32` still
yields a 32-character random part in the returned filename, not one of the
requested length. -/
theorem generate_hex_truncates_at_32 (env : GenEnv) (fs : FS)
    (extension : Option String) (length : Int) (pfx suffix : String)
    (directory : Option String) (max_attempts : Int) (timestamp : Bool)
    (fname : String) (hlen : 32 < length)
    (huuid : ∀ i, (env.uuidHex i).length = 32)
    (h : (generate_random_filename env fs extension length pfx suffix directory
        max_attempts "hex" timestamp).1 = .ok fname) :
    ∃ ext i, processExtension extension = .ok ext ∧
      fname = candidateOf env "hex" length.toNat pfx suffix timestamp ext i ∧
      (randomPartOf env "hex" length.toNat i).length = 32 ∧
      (randomPartOf env "hex" length.toNat i).length ≠ length.toNat := by
  obtain ⟨ext, td, i, hpe, _, hcand, _⟩ :=
    generate_ok env fs extension length pfx suffix directory max_attempts "hex"
      timestamp fname h
  have htake : (pyTake (env.uuidHex i) length.toNat).length
      = min length.toNat (env.uuidHex i).length := by
    show ((env.uuidHex i).toList.take length.toNat).length
        = min length.toNat (env.uuidHex i).length
    rw [List.length_take]
    rfl
  have hrp : (randomPartOf env "hex" length.toNat i).length = 32 := by
    rw [randomPartOf, if_pos rfl, htake, huuid i]
    omega
  exact ⟨ext, i, hpe, hcand, hrp, by rw [hrp]; omega⟩

/-- Witness for C10: `length = 40`, a fixed 32-character UUID hex; the
returned filename's random part is the whole UUID hex, 32 characters. -/
theorem generate_hex_truncates_at_32_witness :
    ∃ ext i, processExtension (some "md") = .ok ext ∧
      "0123456789abcdef0123456789abcdef.md"
          = candidateOf
            ⟨fun _ => "0123456789abcdef0123456789abcdef", fun _ => "abc123xyz789",
              fun _ => 0, fun _ => none⟩
            "hex" (40 : Int).toNat "" "" false ext i ∧
      (randomPartOf
          ⟨fun _ => "0123456789abcdef0123456789abcdef", fun _ => "abc123xyz789",
            fun _ => 0, fun _ => none⟩
          "hex" (40 : Int).toNat i).length = 32 ∧
      (randomPartOf
          ⟨fun _ => "0123456789abcdef0123456789abcdef", fun _ => "abc123xyz789",
            fun _ => 0, fun _ => none⟩
          "hex" (40 : Int).toNat i).length ≠ (40 : Int).toNat :=
  generate_hex_truncates_at_32
    ⟨fun _ => "0123456789abcdef0123456789abcdef", fun _ => "abc123xyz789",
      fun _ => 0, fun _ => none⟩
    [] (some "md") 40 "" "" none 10 false "0123456789abcdef0123456789abcdef.md"
    (by norm_num) (fun _ => rfl) (by decide)

end AIBlog
